import Mathlib

/-!
Verification of the OpenClaw Raycast gateway client.

Shallow embedding of `src/gateway-client.ts`, `src/config.ts`, `src/errors.ts`
and the device-auth payload builder (`buildDeviceAuthPayload`, reproduced in
CONTRIBUTING.md).  Pure functions become Lean functions; the stateful client
becomes explicit state passing on a `ClientState` record, with externally
visible effects (frames sent, promise resolutions, timer cancellations)
reified as an `Action` list.
-/

namespace OpenClaw

/-! ### String helpers: JS `String.prototype.includes` / `toLowerCase` (ASCII) -/

/-- ASCII lowering of one character, the fragment of JS `toLowerCase`
relevant to the classifier's keywords. -/
def lowerChar (c : Char) : Char :=
  if 'A' ≤ c ∧ c ≤ 'Z' then Char.ofNat (c.toNat + 32) else c

/-- JS `s.toLowerCase()` on ASCII text. -/
def lowerStr (s : String) : String :=
  ⟨s.data.map lowerChar⟩

/-- `begWith hay needle`: `needle` occurs at the start of `hay`. -/
def begWith : List Char → List Char → Bool
  | _, [] => true
  | [], _ :: _ => false
  | a :: as, b :: bs => a == b && begWith as bs

/-- `containsSub hay needle`: `needle` occurs contiguously somewhere in `hay`. -/
def containsSub : List Char → List Char → Bool
  | [], needle => begWith [] needle
  | h :: t, needle => begWith (h :: t) needle || containsSub t needle

/-- JS `s.includes(sub)`. -/
def includes (s sub : String) : Bool :=
  containsSub s.data sub.data

/-! ### `src/errors.ts` and the raw error shape (`src/types.ts`) -/

/-- `ErrorShape` from `src/types.ts`; `code`/`message` are optional because
`classifyError` guards every access (`err.code?`, `err.message ?? ""`). -/
structure ErrorShape where
  code : Option String
  message : Option String
  retryable : Option Bool
  retryAfterMs : Option Int
deriving DecidableEq

/-- `GatewayError` from `src/errors.ts` (constructor defaults applied). -/
structure GatewayError where
  message : String
  code : String
  retryable : Bool
  retryAfterMs : Option Int
deriving DecidableEq

/-! ### `classifyError` (`src/gateway-client.ts`, lines 609-655) -/

/-- `GatewayClient.classifyError`. -/
def classifyError (err : Option ErrorShape) : GatewayError :=
  match err with
  | none => ⟨"握手失败 (未知错误)", "UNKNOWN", false, none⟩
  | some e =>
    let code := lowerStr (e.code.getD "")
    let msg := e.message.getD ""
    if includes code "protocol" = true ∨ includes msg "protocol" = true then
      ⟨"协议版本不兼容: " ++ msg ++ "。请升级客户端或联系管理员。", "PROTOCOL_MISMATCH", false, none⟩
    else if includes code "pair" = true ∨ includes code "not_paired" = true ∨
        includes msg "pairing" = true then
      ⟨"设备未配对: " ++ msg ++ "。请在管理后台批准此设备。", "NOT_PAIRED", false, none⟩
    else if code = "401" ∨ code = "403" ∨ includes code "auth" = true ∨
        includes code "unauthorized" = true ∨ includes code "forbidden" = true then
      ⟨"认证失败: " ++ msg ++ "。请检查 Token 是否有效或已过期。", "AUTH_FAILED", false, none⟩
    else if e.retryable.getD false = true then
      ⟨"服务暂时不可用: " ++ msg ++ "。将自动重试...", "RETRYABLE", true, e.retryAfterMs⟩
    else
      ⟨"连接失败: " ++ msg, e.code.getD "UNKNOWN", false, none⟩

example : (classifyError none).code = "UNKNOWN" := by decide
example :
    (classifyError (some ⟨some "AUTH_PROTOCOL", none, none, none⟩)).code =
      "PROTOCOL_MISMATCH" := by decide
example :
    (classifyError (some ⟨some "pair_auth", none, none, none⟩)).code =
      "NOT_PAIRED" := by decide
example :
    (classifyError (some ⟨some "auth", some "must pair", none, none⟩)).code =
      "AUTH_FAILED" := by decide
example :
    (classifyError (some ⟨some "", none, none, none⟩)).code = "" := by decide

/-! ### Device-auth payload (`buildDeviceAuthPayload`, crypto module,
reproduced verbatim in CONTRIBUTING.md lines 209-227) -/

/-- Parameters of `buildDeviceAuthPayload`; `token`/`nonce` may be
null/undefined (`Option`). -/
structure DeviceAuthPayloadParams where
  deviceId : String
  clientId : String
  clientMode : String
  role : String
  scopes : List String
  signedAtMs : Nat
  token : Option String
  nonce : Option String
deriving DecidableEq

/-- JS `Array.prototype.join(sep)`. -/
def joinSep (sep : String) : List String → String
  | [] => ""
  | [x] => x
  | x :: y :: rest => x ++ sep ++ joinSep sep (y :: rest)

/-- `buildDeviceAuthPayload` from the crypto module:
`base.join("|")` over the nine fields, scopes comma-joined, null token and
nonce rendered as the empty string. -/
def buildDeviceAuthPayload (p : DeviceAuthPayloadParams) : String :=
  let scopes := joinSep "," p.scopes
  let token := p.token.getD ""
  let nonce := p.nonce.getD ""
  joinSep "|" ["v2", p.deviceId, p.clientId, p.clientMode, p.role, scopes,
    toString p.signedAtMs, token, nonce]

/-- JS `s.split("|")` at the character level. -/
def splitPipe : List Char → List (List Char)
  | [] => [[]]
  | c :: cs =>
    if c = '|' then [] :: splitPipe cs
    else
      match splitPipe cs with
      | [] => [[c]]
      | s :: ss => (c :: s) :: ss

theorem splitPipe_ne_nil (l : List Char) : splitPipe l ≠ [] := by
  induction l with
  | nil => simp [splitPipe]
  | cons c cs ih =>
    simp only [splitPipe]
    split
    · simp
    · split
      · simp
      · simp

theorem splitPipe_no_pipe (l : List Char) (h : '|' ∉ l) : splitPipe l = [l] := by
  induction l with
  | nil => rfl
  | cons c cs ih =>
    simp only [List.mem_cons, not_or] at h
    have hc : ¬c = '|' := fun hcc => h.1 hcc.symm
    simp only [splitPipe, if_neg hc, ih h.2]

theorem splitPipe_append (a b : List Char) (h : '|' ∉ a) :
    splitPipe (a ++ '|' :: b) = a :: splitPipe b := by
  induction a with
  | nil => simp [splitPipe]
  | cons c cs ih =>
    simp only [List.mem_cons, not_or] at h
    have hc : ¬c = '|' := fun hcc => h.1 hcc.symm
    have hstep : (c :: cs) ++ '|' :: b = c :: (cs ++ '|' :: b) := rfl
    rw [hstep]
    simp only [splitPipe, if_neg hc, ih h.2]

theorem data_append (a b : String) : (a ++ b).data = a.data ++ b.data := rfl

theorem str_ext (a b : String) (h : a.data = b.data) : a = b := by
  cases a
  cases b
  cases h
  rfl

theorem data_joinSep_cons (x y : String) (z : List String) :
    (joinSep "|" (x :: y :: z)).data =
      x.data ++ '|' :: (joinSep "|" (y :: z)).data := by
  show (x ++ "|" ++ joinSep "|" (y :: z)).data = _
  rw [data_append, data_append, List.append_assoc]
  rfl

theorem pipe_not_in_joinComma (scopes : List String)
    (h : ∀ sc ∈ scopes, '|' ∉ sc.data) : '|' ∉ (joinSep "," scopes).data := by
  induction scopes with
  | nil => simp [joinSep]
  | cons x xs ih =>
    cases xs with
    | nil =>
      simpa [joinSep] using h x (by simp)
    | cons y ys =>
      simp only [joinSep, data_append, List.mem_append]
      push_neg
      refine ⟨⟨h x (by simp), by decide⟩, ?_⟩
      have := ih (fun sc hsc => h sc (List.mem_cons_of_mem x hsc))
      simpa [joinSep] using this

/-! ### Claim C2 -/

/-- C2: for every parameter record whose fields are pipe-free,
`buildDeviceAuthPayload` returns exactly the nine fields joined by `"|"` in
the fixed order `v2 | deviceId | clientId | clientMode | role | scopes-csv |
signedAtMs | token | nonce`; splitting the output at `'|'` recovers exactly
those nine segments in order (so changing one input field changes only its
segment), and an absent token or nonce renders as the empty string. -/
theorem buildDeviceAuthPayload_format (p : DeviceAuthPayloadParams)
    (h1 : '|' ∉ p.deviceId.data) (h2 : '|' ∉ p.clientId.data)
    (h3 : '|' ∉ p.clientMode.data) (h4 : '|' ∉ p.role.data)
    (h5 : ∀ sc ∈ p.scopes, '|' ∉ sc.data)
    (h6 : '|' ∉ (toString p.signedAtMs).data)
    (h7 : '|' ∉ (p.token.getD "").data) (h8 : '|' ∉ (p.nonce.getD "").data) :
    (buildDeviceAuthPayload p).data =
      "v2".data ++ '|' :: (p.deviceId.data ++ '|' :: (p.clientId.data ++ '|' ::
        (p.clientMode.data ++ '|' :: (p.role.data ++ '|' ::
        ((joinSep "," p.scopes).data ++ '|' :: ((toString p.signedAtMs).data
          ++ '|' :: ((p.token.getD "").data ++ '|' ::
          (p.nonce.getD "").data))))))) ∧
    splitPipe (buildDeviceAuthPayload p).data =
      ["v2".data, p.deviceId.data, p.clientId.data, p.clientMode.data,
        p.role.data, (joinSep "," p.scopes).data, (toString p.signedAtMs).data,
        (p.token.getD "").data, (p.nonce.getD "").data] ∧
    (splitPipe (buildDeviceAuthPayload p).data).length = 9 ∧
    (p.token = none → (p.token.getD "") = "") ∧
    (p.nonce = none → (p.nonce.getD "") = "") := by
  have hs : '|' ∉ (joinSep "," p.scopes).data := pipe_not_in_joinComma p.scopes h5
  have hdata : (buildDeviceAuthPayload p).data =
      "v2".data ++ '|' :: (p.deviceId.data ++ '|' :: (p.clientId.data ++ '|' ::
        (p.clientMode.data ++ '|' :: (p.role.data ++ '|' ::
        ((joinSep "," p.scopes).data ++ '|' :: ((toString p.signedAtMs).data
          ++ '|' :: ((p.token.getD "").data ++ '|' ::
          (p.nonce.getD "").data))))))) := by
    show (joinSep "|" ["v2", p.deviceId, p.clientId, p.clientMode, p.role,
      joinSep "," p.scopes, toString p.signedAtMs, p.token.getD "",
      p.nonce.getD ""]).data = _
    rw [data_joinSep_cons, data_joinSep_cons, data_joinSep_cons,
      data_joinSep_cons, data_joinSep_cons, data_joinSep_cons,
      data_joinSep_cons, data_joinSep_cons]
    rfl
  have hsplit : splitPipe (buildDeviceAuthPayload p).data =
      ["v2".data, p.deviceId.data, p.clientId.data, p.clientMode.data,
        p.role.data, (joinSep "," p.scopes).data, (toString p.signedAtMs).data,
        (p.token.getD "").data, (p.nonce.getD "").data] := by
    rw [hdata, splitPipe_append _ _ (by decide), splitPipe_append _ _ h1,
      splitPipe_append _ _ h2, splitPipe_append _ _ h3,
      splitPipe_append _ _ h4, splitPipe_append _ _ hs,
      splitPipe_append _ _ h6, splitPipe_append _ _ h7,
      splitPipe_no_pipe _ h8]
  refine ⟨hdata, hsplit, by rw [hsplit]; rfl, fun h => by rw [h]; rfl,
    fun h => by rw [h]; rfl⟩

/-- C2 witness: the exact input of the repository's unit test
(`crypto.test.ts`), producing the string the test expects. -/
theorem buildDeviceAuthPayload_format_witness :
    buildDeviceAuthPayload
      ⟨"abc123def456", "openclaw-control-ui", "webchat", "operator",
        ["operator.admin", "operator.approvals"], 1700000000000,
        some "my-token", some "nonce-xyz"⟩ =
      "v2|abc123def456|openclaw-control-ui|webchat|operator|operator.admin,operator.approvals|1700000000000|my-token|nonce-xyz" := by
  have h := buildDeviceAuthPayload_format
    ⟨"abc123def456", "openclaw-control-ui", "webchat", "operator",
      ["operator.admin", "operator.approvals"], 1700000000000,
      some "my-token", some "nonce-xyz"⟩
    (by decide) (by decide) (by decide) (by decide) (by decide) (by decide)
    (by decide) (by decide)
  exact str_ext _ _ (h.1.trans (by decide))

/-! ### Configuration constants (`src/config.ts`) -/

def MIN_PROTOCOL_VERSION : Int := 3
def DEFAULT_TICK_INTERVAL_MS : Int := 15000
def DEFAULT_MAX_RECONNECTS : Nat := 5
def RECONNECT_BASE_DELAY_MS : Nat := 1000
def RECONNECT_MAX_DELAY_MS : Nat := 30000

/-! ### Wire frames and payload views (`src/types.ts`) -/

/-- `policy` block of a `hello-ok` payload; fields optional because every
access in the client is guarded (`payload.policy?.tickIntervalMs` etc.). -/
structure HelloPolicy where
  tickIntervalMs : Option Int := none
  retryAfterMs : Option Int := none
deriving DecidableEq

/-- `auth` block of a `hello-ok` payload. -/
structure HelloAuth where
  deviceToken : Option String := none
  role : String := ""
  scopes : List String := []
deriving DecidableEq

/-- JSON-object view of an untyped payload: each field models one property
access the client performs on an `unknown` payload (absent property =
`none`). -/
structure Val where
  type : Option String := none
  protocol : Option Int := none
  policy : Option HelloPolicy := none
  auth : Option HelloAuth := none
  retryAfterMs : Option Int := none
  nonce : Option String := none
deriving DecidableEq

/-- Request frame (`{type:"req", id, method, params?}`); params are opaque
to every property modelled here and are omitted. -/
structure RequestFrame where
  id : String
  method : String
deriving DecidableEq

/-- Response frame (`{type:"res", id, ok, payload?, error?}`). -/
structure ResponseFrame where
  id : String
  ok : Bool
  payload : Option Val := none
  error : Option ErrorShape := none
deriving DecidableEq

/-- `GatewayFrame`: the tagged union of the three frame variants. -/
inductive Frame
  | req (r : RequestFrame)
  | res (r : ResponseFrame)
  | event (event : String) (payload : Option Val)
deriving DecidableEq

/-! ### Client state (`GatewayClient` fields plus the `doConnect`
closure-locals `handshakeDone`/`connectReqId`) -/

/-- `ConnectionState` from `src/gateway-client.ts`. -/
inductive ConnectionState
  | disconnected
  | connecting
  | connected
  | reconnecting
deriving DecidableEq

def stateName : ConnectionState → String
  | ConnectionState.disconnected => "disconnected"
  | ConnectionState.connecting => "connecting"
  | ConnectionState.connected => "connected"
  | ConnectionState.reconnecting => "reconnecting"

/-- Argument passed to an event handler: exact-name handlers receive the
raw payload, wildcard handlers receive the tagged `{event, payload}`
object. -/
inductive HandlerArg
  | plain (payload : Option Val)
  | tagged (event : String) (payload : Option Val)
deriving DecidableEq

/-- An event handler: an identity (JS object identity) plus its behaviour;
`Except.error` models the handler throwing. -/
structure Handler where
  hid : Nat
  run : HandlerArg → Except String Unit

/-- One entry of the `pendingRequests` map (the resolve/reject callbacks
and the timeout handle are modelled through `Action`s naming the id). -/
structure PendingRequest where
  id : String
deriving DecidableEq

/-- Externally visible effects of a client transition. -/
inductive Action
  | send (frame : RequestFrame)
  | resolve (id : String) (payload : Option Val)
  | reject (id : String) (message : String)
  | cancelTimer (id : String)
  | closeWs
  | resolveConnect (payload : Val)
  | rejectConnect (error : GatewayError)
  | saveToken (role : String) (token : String) (scopes : List String)
  | invoked (hid : Nat) (arg : HandlerArg) (ok : Bool)
  | reportError (error : GatewayError)
deriving DecidableEq

/-- The mutable state of one `GatewayClient` instance. -/
structure ClientState where
  state : ConnectionState
  pendingRequests : List PendingRequest
  eventHandlers : List (String × List Handler)
  tickTimer : Option Int
  tickIntervalMs : Int
  reconnectAttempt : Nat
  reconnectTimer : Option Nat
  helloPayload : Option Val
  intentionalClose : Bool
  ws : Bool
  negotiatedProtocol : Int
  handshakeDone : Bool
  connectReqId : Option String
  maxReconnects : Nat

/-! ### Client operations -/

/-- `eventHandlers.get(event)`, absent key read as the empty set. -/
def handlersFor (s : ClientState) (event : String) : List Handler :=
  (s.eventHandlers.lookup event).getD []

/-- `on(event, handler)` (named `onEvent` here; `on` is a Lean keyword). -/
def onEvent (s : ClientState) (event : String) (h : Handler) : ClientState :=
  match s.eventHandlers.lookup event with
  | none => { s with eventHandlers := s.eventHandlers ++ [(event, [h])] }
  | some _ =>
    { s with eventHandlers := s.eventHandlers.map fun kv =>
        if kv.1 = event then (kv.1, kv.2 ++ [h]) else kv }

/-- Run every handler of a set on `arg`, each call wrapped in its own
try/catch: a throwing handler records `ok := false` and iteration
continues. -/
def runHandlers (hs : List Handler) (arg : HandlerArg) : List Action :=
  hs.map fun h =>
    match h.run arg with
    | Except.ok _ => Action.invoked h.hid arg true
    | Except.error _ => Action.invoked h.hid arg false

/-- `emitEvent(event, payload)`: exact-name fan-out, then wildcard fan-out
with the tagged `{event, payload}` argument. -/
def emitEvent (s : ClientState) (event : String) (payload : Option Val) :
    List Action :=
  runHandlers (handlersFor s event) (HandlerArg.plain payload)
    ++ runHandlers (handlersFor s "*") (HandlerArg.tagged event payload)

def CLOSE_MESSAGE : String := "客户端主动断开连接"

/-- `disconnect()`. -/
def disconnect (s : ClientState) : ClientState × List Action :=
  ({ s with
      intentionalClose := true
      reconnectTimer := none
      tickTimer := none
      pendingRequests := []
      eventHandlers := []
      ws := false
      state := ConnectionState.disconnected },
    (s.pendingRequests.map fun p =>
      [Action.cancelTimer p.id, Action.reject p.id CLOSE_MESSAGE]).flatten
      ++ (if s.ws then [Action.closeWs] else []))

/-- `request(method)`: rejects immediately when not connected, otherwise
registers a pending entry (with its timeout) and sends the frame. `id` is
the value produced by `nextId()`. -/
def request (s : ClientState) (id : String) (method : String) :
    Except String (ClientState × List Action) :=
  if s.ws = false ∨ s.state ≠ ConnectionState.connected then
    Except.error ("Gateway 未连接 (state: " ++ stateName s.state ++ ")")
  else
    Except.ok ({ s with pendingRequests := s.pendingRequests ++ [⟨id⟩] },
      [Action.send ⟨id, method⟩])

/-- One firing of the `setInterval` heartbeat callback. -/
def tickFire (s : ClientState) (id : String) : List Action :=
  if s.ws = true ∧ s.state = ConnectionState.connected then
    [Action.send ⟨id, "tick"⟩]
  else []

/-- Result record of `processHandshakeResponse` (`{ok, payload?, error?}`). -/
structure HandshakeResult where
  ok : Bool
  payload : Option Val := none
  error : Option GatewayError := none

/-- Failure tail of `processHandshakeResponse`: classify and report. -/
def failHandshake (s : ClientState) (res : ResponseFrame) :
    ClientState × HandshakeResult × List Action :=
  (s, ⟨false, none, some (classifyError res.error)⟩, [])

/-- `processHandshakeResponse` (`src/gateway-client.ts`, lines 459-499). -/
def processHandshakeResponse (s : ClientState) (res : ResponseFrame) :
    ClientState × HandshakeResult × List Action :=
  if res.ok = true then
    match res.payload with
    | some payload =>
      if payload.type = some "hello-ok" then
        let negotiated := payload.protocol.getD MIN_PROTOCOL_VERSION
        let tick0 := (payload.policy.bind
          HelloPolicy.tickIntervalMs).getD DEFAULT_TICK_INTERVAL_MS
        let tick1 :=
          match payload.policy.bind HelloPolicy.retryAfterMs with
          | some r => if r ≠ 0 then max tick0 r else tick0
          | none => tick0
        let saveActs :=
          match payload.auth with
          | some a =>
            match a.deviceToken with
            | some t => if t ≠ "" then [Action.saveToken a.role t a.scopes]
                        else []
            | none => []
          | none => []
        ({ s with
            helloPayload := some payload
            negotiatedProtocol := negotiated
            tickIntervalMs := tick1
            reconnectAttempt := 0
            state := ConnectionState.connected
            tickTimer := some tick1 },
          ⟨true, some payload, none⟩, saveActs)
      else failHandshake s res
    | none => failHandshake s res
  else failHandshake s res

/-- The `connect.challenge` branch of the socket message handler:
builds the signed `connect` request and sends it (`signFails` models
`buildConnectParams`/`signDevicePayload` throwing). -/
def handleChallenge (s : ClientState) (_nonce : String) (newId : String)
    (signFails : Bool) : ClientState × List Action :=
  if signFails = true then
    if s.handshakeDone = false then
      ({ s with handshakeDone := true },
        [Action.rejectConnect ⟨"签名 challenge 失败", "SIGN_FAILED", false, none⟩,
          Action.closeWs])
    else (s, [])
  else
    ({ s with connectReqId := some newId },
      [Action.send ⟨newId, "connect"⟩])

/-- The `frame.type === "res"` branch of the socket message handler
(`src/gateway-client.ts`, lines 304-347): handshake match, then pending
lookup, tick-interval ratchet, resolve/reject. -/
def handleResFrame (s : ClientState) (res : ResponseFrame) :
    ClientState × List Action :=
  if s.handshakeDone = false ∧ s.connectReqId = some res.id then
    let pr := processHandshakeResponse s res
    if pr.2.1.ok = true then
      ({ pr.1 with handshakeDone := true },
        pr.2.2 ++ [Action.resolveConnect (pr.2.1.payload.getD {})])
    else
      ({ pr.1 with handshakeDone := true },
        pr.2.2 ++ [Action.rejectConnect
          (pr.2.1.error.getD ⟨"", "UNKNOWN", false, none⟩), Action.closeWs])
  else
    match s.pendingRequests.find? (fun q => q.id == res.id) with
    | none => (s, [])
    | some p =>
      let s1 := { s with
        pendingRequests := s.pendingRequests.filter fun q => q.id != res.id }
      if res.ok = true then
        match res.payload.bind Val.retryAfterMs with
        | some r =>
          if r ≠ 0 then
            ({ s1 with
                tickIntervalMs := max s1.tickIntervalMs r
                tickTimer := some (max s1.tickIntervalMs r) },
              [Action.cancelTimer p.id, Action.resolve p.id res.payload])
          else
            (s1, [Action.cancelTimer p.id, Action.resolve p.id res.payload])
        | none =>
          (s1, [Action.cancelTimer p.id, Action.resolve p.id res.payload])
      else
        (s1, [Action.cancelTimer p.id, Action.reject p.id
          ((res.error.bind ErrorShape.message).getD "请求失败")])

/-- The whole `ws.on("message")` handler on one already-parsed frame
(a non-JSON frame is discarded before this point). `newId` is the value
`nextId()` would produce if the handler sends a `connect` request. -/
def handleMessage (s : ClientState) (newId : String) (signFails : Bool)
    (f : Frame) : ClientState × List Action :=
  match f with
  | Frame.event e payload =>
    if e = "connect.challenge" then
      handleChallenge s ((payload.bind Val.nonce).getD "") newId signFails
    else
      (s, emitEvent s e payload)
  | Frame.res r => handleResFrame s r
  | Frame.req _ => (s, [])

/-- `scheduleReconnect` (`src/gateway-client.ts`, lines 577-604). -/
def reconnectDelay (attempt : Nat) : Nat :=
  min (RECONNECT_BASE_DELAY_MS * 2 ^ attempt) RECONNECT_MAX_DELAY_MS

def scheduleReconnect (s : ClientState) : ClientState × List Action :=
  if s.maxReconnects ≤ s.reconnectAttempt then
    ({ s with state := ConnectionState.disconnected },
      [Action.reportError ⟨"已达最大重连次数 (" ++ toString s.maxReconnects
        ++ ")，请检查网络后手动重试", "MAX_RECONNECTS", false, none⟩])
  else
    ({ s with
        reconnectAttempt := s.reconnectAttempt + 1
        reconnectTimer := some (reconnectDelay s.reconnectAttempt) }, [])


/-- C1 counterexample: the input `{code:"auth", message:"must pair"}` mentions
both "pair" (in its message) and the auth keyword "auth" (in its code), yet
`classifyError` returns `AUTH_FAILED`, not `NOT_PAIRED`: a message mentioning
"pair" only triggers the pairing branch when it mentions the longer keyword
"pairing". -/
theorem classifyError_pair_message_counterexample :
    includes "must pair" "pair" = true ∧
    includes (lowerStr "auth") "auth" = true ∧
    (classifyError (some ⟨some "auth", some "must pair", none, none⟩)).code
      = "AUTH_FAILED" ∧
    (classifyError (some ⟨some "auth", some "must pair", none, none⟩)).code
      ≠ "NOT_PAIRED" := by
  refine ⟨by decide, by decide, by decide, by decide⟩

/-- C1 (amended): `classifyError` is total and deterministic (it is a pure
function of its argument) and resolves multi-matching inputs in the fixed
priority order: absent error → `UNKNOWN`; (lowercased) code or message
mentioning "protocol" → `PROTOCOL_MISMATCH` (even when auth keywords also
match); otherwise code mentioning "pair" or "not_paired", or message
mentioning "pairing" → `NOT_PAIRED` (even when auth keywords also match; a
message mentioning "pair" without "pairing" does not trigger this branch);
otherwise code equal to "401"/"403" or mentioning
"auth"/"unauthorized"/"forbidden" → `AUTH_FAILED`; otherwise a retryable
flag → `RETRYABLE`; otherwise the original code passes through verbatim,
including the empty string. -/
theorem classifyError_priority (e : ErrorShape) :
    (classifyError none).code = "UNKNOWN" ∧
    (includes (lowerStr (e.code.getD "")) "protocol" = true ∨
        includes (e.message.getD "") "protocol" = true →
      (classifyError (some e)).code = "PROTOCOL_MISMATCH") ∧
    (includes (lowerStr (e.code.getD "")) "protocol" = false →
      includes (e.message.getD "") "protocol" = false →
      (includes (lowerStr (e.code.getD "")) "pair" = true ∨
        includes (lowerStr (e.code.getD "")) "not_paired" = true ∨
        includes (e.message.getD "") "pairing" = true) →
      (classifyError (some e)).code = "NOT_PAIRED") ∧
    (includes (lowerStr (e.code.getD "")) "protocol" = false →
      includes (e.message.getD "") "protocol" = false →
      includes (lowerStr (e.code.getD "")) "pair" = false →
      includes (lowerStr (e.code.getD "")) "not_paired" = false →
      includes (e.message.getD "") "pairing" = false →
      (lowerStr (e.code.getD "") = "401" ∨ lowerStr (e.code.getD "") = "403" ∨
        includes (lowerStr (e.code.getD "")) "auth" = true ∨
        includes (lowerStr (e.code.getD "")) "unauthorized" = true ∨
        includes (lowerStr (e.code.getD "")) "forbidden" = true) →
      (classifyError (some e)).code = "AUTH_FAILED") ∧
    (includes (lowerStr (e.code.getD "")) "protocol" = false →
      includes (e.message.getD "") "protocol" = false →
      includes (lowerStr (e.code.getD "")) "pair" = false →
      includes (lowerStr (e.code.getD "")) "not_paired" = false →
      includes (e.message.getD "") "pairing" = false →
      lowerStr (e.code.getD "") ≠ "401" → lowerStr (e.code.getD "") ≠ "403" →
      includes (lowerStr (e.code.getD "")) "auth" = false →
      includes (lowerStr (e.code.getD "")) "unauthorized" = false →
      includes (lowerStr (e.code.getD "")) "forbidden" = false →
      (e.retryable.getD false = true →
        (classifyError (some e)).code = "RETRYABLE" ∧
        (classifyError (some e)).retryable = true ∧
        (classifyError (some e)).retryAfterMs = e.retryAfterMs) ∧
      (e.retryable.getD false = false →
        (classifyError (some e)).code = e.code.getD "UNKNOWN")) := by
  refine ⟨by decide, ?_, ?_, ?_, ?_⟩
  · intro h
    simp only [classifyError, h, if_pos]
  · intro h1 h2 h3
    simp only [classifyError]
    rw [if_neg (by simp [h1, h2]), if_pos (by tauto)]
  · intro h1 h2 h3 h4 h5 h6
    simp only [classifyError]
    rw [if_neg (by simp [h1, h2]), if_neg (by simp [h3, h4, h5]), if_pos (by tauto)]
  · intro h1 h2 h3 h4 h5 h6 h7 h8 h9 h10
    simp only [classifyError]
    rw [if_neg (by simp [h1, h2]), if_neg (by simp [h3, h4, h5]),
      if_neg (by simp [h6, h7, h8, h9, h10])]
    constructor
    · intro hr
      rw [if_pos hr]
      exact ⟨rfl, rfl, rfl⟩
    · intro hr
      rw [if_neg (by simp [hr])]

/-- C1 witness: instantiates `classifyError_priority` at the adversarial
code "pair_auth", which matches both the pairing and the auth keywords and
classifies as `NOT_PAIRED`. -/
theorem classifyError_priority_witness :
    (classifyError (some ⟨some "pair_auth", none, none, none⟩)).code
      = "NOT_PAIRED" :=
  (classifyError_priority ⟨some "pair_auth", none, none, none⟩).2.2.1
    (by decide) (by decide) (by decide)

/-! ### Claim C3 -/

/-- C3: processing an ok handshake Response carrying a hello-ok payload
establishes the success postcondition: negotiated protocol =
`HelloOk.protocol` (the server's concrete choice), heartbeat interval =
`policy.tickIntervalMs` upgraded to `policy.retryAfterMs` when that hint is
present and larger, reconnect-attempt counter reset to zero, state
`connected`, and the heartbeat scheduler started with the new interval. -/
theorem processHandshakeResponse_success (s : ClientState)
    (res : ResponseFrame) (p : Val) (pol : HelloPolicy) (prot t : Int)
    (hok : res.ok = true) (hp : res.payload = some p)
    (htype : p.type = some "hello-ok") (hprot : p.protocol = some prot)
    (hpol : p.policy = some pol) (ht : pol.tickIntervalMs = some t)
    (ht0 : 0 ≤ t) :
    ((processHandshakeResponse s res).1.negotiatedProtocol = prot) ∧
    ((processHandshakeResponse s res).1.tickIntervalMs
      = max t (pol.retryAfterMs.getD t)) ∧
    ((processHandshakeResponse s res).1.reconnectAttempt = 0) ∧
    ((processHandshakeResponse s res).1.state = ConnectionState.connected) ∧
    ((processHandshakeResponse s res).1.tickTimer
      = some ((processHandshakeResponse s res).1.tickIntervalMs)) := by
  rcases hr : pol.retryAfterMs with _ | r
  · simp [processHandshakeResponse, hok, hp, htype, hprot, hpol, ht, hr,
      MIN_PROTOCOL_VERSION, DEFAULT_TICK_INTERVAL_MS]
  · by_cases hr0 : r = 0
    · subst hr0
      simp [processHandshakeResponse, hok, hp, htype, hprot, hpol, ht, hr,
        MIN_PROTOCOL_VERSION, DEFAULT_TICK_INTERVAL_MS, max_eq_left ht0]
    · simp [processHandshakeResponse, hok, hp, htype, hprot, hpol, ht, hr,
        hr0, MIN_PROTOCOL_VERSION, DEFAULT_TICK_INTERVAL_MS]

/-- C3 witness: a concrete hello-ok response with `protocol = 3`,
`tickIntervalMs = 15000` and a larger `retryAfterMs = 20000` hint. -/
theorem processHandshakeResponse_success_witness :
    ((processHandshakeResponse
        ⟨ConnectionState.connecting, [], [], none, 15000, 2, none, none,
          false, true, 3, false, some "c1", 5⟩
        ⟨"c1", true,
          some ⟨some "hello-ok", some 3, some ⟨some 15000, some 20000⟩,
            none, none, none⟩, none⟩).1.negotiatedProtocol = 3) ∧
    ((processHandshakeResponse
        ⟨ConnectionState.connecting, [], [], none, 15000, 2, none, none,
          false, true, 3, false, some "c1", 5⟩
        ⟨"c1", true,
          some ⟨some "hello-ok", some 3, some ⟨some 15000, some 20000⟩,
            none, none, none⟩, none⟩).1.tickIntervalMs = 20000) ∧
    ((processHandshakeResponse
        ⟨ConnectionState.connecting, [], [], none, 15000, 2, none, none,
          false, true, 3, false, some "c1", 5⟩
        ⟨"c1", true,
          some ⟨some "hello-ok", some 3, some ⟨some 15000, some 20000⟩,
            none, none, none⟩, none⟩).1.state
      = ConnectionState.connected) := by
  have h := processHandshakeResponse_success
    ⟨ConnectionState.connecting, [], [], none, 15000, 2, none, none,
      false, true, 3, false, some "c1", 5⟩
    ⟨"c1", true,
      some ⟨some "hello-ok", some 3, some ⟨some 15000, some 20000⟩,
        none, none, none⟩, none⟩
    ⟨some "hello-ok", some 3, some ⟨some 15000, some 20000⟩, none, none, none⟩
    ⟨some 15000, some 20000⟩ 3 15000 rfl rfl rfl rfl rfl rfl (by decide)
  exact ⟨h.1, h.2.1.trans (by decide), h.2.2.2.1⟩

/-! ### Claim C4 -/

/-- C4 counterexample: the handshake `connect` Request is sent while the
connection state is `connecting`, not `connected` — the claimed invariant
does not extend to the handshake Request. -/
theorem connect_request_sent_while_connecting :
    (⟨ConnectionState.connecting, [], [], none, 15000, 0, none, none,
        false, true, 3, false, none, 5⟩ : ClientState).state
      ≠ ConnectionState.connected ∧
    Action.send ⟨"id1", "connect"⟩ ∈
      (handleMessage
        ⟨ConnectionState.connecting, [], [], none, 15000, 0, none, none,
          false, true, 3, false, none, 5⟩
        "id1" false
        (Frame.event "connect.challenge"
          (some ⟨none, none, none, none, none, some "n1"⟩))).2 := by
  exact ⟨by decide, by decide⟩

/-- C4 (amended): no Request frame is sent by `request()` or by the
heartbeat tick while the connection state is not `connected` — `request()`
rejects immediately with a not-connected error without sending, and the
tick callback sends nothing; the sole exception is the handshake `connect`
Request, which is sent in state `connecting` in response to the server's
challenge. -/
theorem no_request_when_not_connected (s : ClientState) (id method : String)
    (h : s.state ≠ ConnectionState.connected) :
    request s id method =
      Except.error ("Gateway 未连接 (state: " ++ stateName s.state ++ ")") ∧
    tickFire s id = [] := by
  constructor
  · unfold request
    rw [if_pos (Or.inr h)]
  · unfold tickFire
    rw [if_neg (fun hc => h hc.2)]

/-- C4 witness: a reconnecting client rejects a request without sending and
its tick callback is inert. -/
theorem no_request_when_not_connected_witness :
    request
      ⟨ConnectionState.reconnecting, [], [], none, 15000, 1, none, none,
        false, true, 3, true, none, 5⟩ "id9" "status"
      = Except.error "Gateway 未连接 (state: reconnecting)" ∧
    tickFire
      ⟨ConnectionState.reconnecting, [], [], none, 15000, 1, none, none,
        false, true, 3, true, none, 5⟩ "id9" = [] := by
  have h := no_request_when_not_connected
    ⟨ConnectionState.reconnecting, [], [], none, 15000, 1, none, none,
      false, true, 3, true, none, 5⟩ "id9" "status" (by decide)
  exact ⟨h.1.trans (congrArg Except.error (by decide)), h.2⟩

/-! ### Claim C5 -/

/-- C5: `disconnect()` is idempotent (the second call changes nothing and
performs no action), synchronously clears the reconnect and heartbeat
timers, rejects every pending request with the defined connection-closed
error while cancelling each pending request's timeout handle, clears the
socket handle, and leaves the state `disconnected`. -/
theorem disconnect_spec (s : ClientState) :
    ((disconnect s).1.state = ConnectionState.disconnected) ∧
    ((disconnect s).1.reconnectTimer = none) ∧
    ((disconnect s).1.tickTimer = none) ∧
    ((disconnect s).1.pendingRequests = []) ∧
    ((disconnect s).1.eventHandlers = []) ∧
    ((disconnect s).1.ws = false) ∧
    (∀ p ∈ s.pendingRequests,
      Action.cancelTimer p.id ∈ (disconnect s).2 ∧
      Action.reject p.id CLOSE_MESSAGE ∈ (disconnect s).2) ∧
    disconnect (disconnect s).1 = ((disconnect s).1, []) := by
  refine ⟨rfl, rfl, rfl, rfl, rfl, rfl, ?_, rfl⟩
  intro p hp
  constructor
  · apply List.mem_append_left
    rw [List.mem_flatten]
    exact ⟨[Action.cancelTimer p.id, Action.reject p.id CLOSE_MESSAGE],
      List.mem_map_of_mem _ hp, by simp⟩
  · apply List.mem_append_left
    rw [List.mem_flatten]
    exact ⟨[Action.cancelTimer p.id, Action.reject p.id CLOSE_MESSAGE],
      List.mem_map_of_mem _ hp, by simp⟩

/-- C5 witness: disconnecting a connected client with one pending request
rejects it with the connection-closed error and ends disconnected. -/
theorem disconnect_spec_witness :
    Action.reject "r1" CLOSE_MESSAGE ∈
      (disconnect
        ⟨ConnectionState.connected, [⟨"r1"⟩], [], some 15000, 15000, 0,
          none, none, false, true, 3, true, some "c1", 5⟩).2 ∧
    (disconnect
        ⟨ConnectionState.connected, [⟨"r1"⟩], [], some 15000, 15000, 0,
          none, none, false, true, 3, true, some "c1", 5⟩).1.state
      = ConnectionState.disconnected := by
  have h := disconnect_spec
    ⟨ConnectionState.connected, [⟨"r1"⟩], [], some 15000, 15000, 0,
      none, none, false, true, 3, true, some "c1", 5⟩
  exact ⟨(h.2.2.2.2.2.2.1 ⟨"r1"⟩ (by decide)).2, h.1⟩

/-! ### Claim C6 -/

/-- C6: the reconnect delay for attempt `n` (starting at 0) is
`min(baseDelay * 2^n, maxDelay)`; with base 1000 ms and cap 30000 ms the
successive delays are exactly 1000, 2000, 4000, 8000, 16000, 30000 and
stay 30000 for every later attempt, and `scheduleReconnect` arms the
reconnect timer with exactly this delay while incrementing the attempt
counter. -/
theorem reconnectDelay_spec (s : ClientState) (n : Nat) (hn : 5 ≤ n)
    (hatt : s.reconnectAttempt < s.maxReconnects) :
    (∀ m, reconnectDelay m
      = min (RECONNECT_BASE_DELAY_MS * 2 ^ m) RECONNECT_MAX_DELAY_MS) ∧
    (List.range 6).map reconnectDelay
      = [1000, 2000, 4000, 8000, 16000, 30000] ∧
    reconnectDelay n = 30000 ∧
    (scheduleReconnect s).1.reconnectTimer
      = some (reconnectDelay s.reconnectAttempt) ∧
    (scheduleReconnect s).1.reconnectAttempt = s.reconnectAttempt + 1 := by
  have hnotle : ¬s.maxReconnects ≤ s.reconnectAttempt := Nat.not_le.mpr hatt
  refine ⟨fun m => rfl, by decide, ?_, ?_, ?_⟩
  · have h2 : (30000 : Nat) ≤ 1000 * 2 ^ n := by
      calc (30000 : Nat) ≤ 1000 * 2 ^ 5 := by norm_num
        _ ≤ 1000 * 2 ^ n :=
          Nat.mul_le_mul_left 1000 (Nat.pow_le_pow_right (by norm_num) hn)
    simpa [reconnectDelay, RECONNECT_BASE_DELAY_MS, RECONNECT_MAX_DELAY_MS]
      using Nat.min_eq_right h2
  · unfold scheduleReconnect
    rw [if_neg hnotle]
  · unfold scheduleReconnect
    rw [if_neg hnotle]

/-- C6 witness: attempt 7 is capped at 30000 ms and scheduling from
attempt 2 (of max 5) arms the timer with 4000 ms. -/
theorem reconnectDelay_spec_witness :
    reconnectDelay 7 = 30000 ∧
    (scheduleReconnect
      ⟨ConnectionState.reconnecting, [], [], none, 15000, 2, none, none,
        false, false, 3, true, none, 5⟩).1.reconnectTimer = some 4000 := by
  have h := reconnectDelay_spec
    ⟨ConnectionState.reconnecting, [], [], none, 15000, 2, none, none,
      false, false, 3, true, none, 5⟩ 7 (by decide) (by decide)
  exact ⟨h.2.2.1, h.2.2.2.1.trans (by decide)⟩

/-! ### Claim C7 -/

/-- C7: while connected (post-handshake), the heartbeat interval is a
one-way ratchet: an ok RPC response matching a pending request and
carrying a numeric `retryAfterMs` hint sets the interval to
`max(current, hint)` and restarts the scheduler with the new period when
the hint is larger, and no response processing ever decreases the
interval. -/
theorem heartbeat_ratchet (s : ClientState) (res : ResponseFrame)
    (p : PendingRequest) (r : Int)
    (hhs : s.handshakeDone = true) (h0 : 0 ≤ s.tickIntervalMs)
    (hfind : s.pendingRequests.find? (fun q => q.id == res.id) = some p)
    (hok : res.ok = true)
    (hr : res.payload.bind Val.retryAfterMs = some r) :
    ((handleResFrame s res).1.tickIntervalMs = max s.tickIntervalMs r) ∧
    (s.tickIntervalMs < r →
      (handleResFrame s res).1.tickTimer = some (max s.tickIntervalMs r)) ∧
    (∀ res2 : ResponseFrame,
      s.tickIntervalMs ≤ (handleResFrame s res2).1.tickIntervalMs) := by
  have hbr : ¬(s.handshakeDone = false ∧ s.connectReqId = some res.id) := by
    simp [hhs]
  refine ⟨?_, ?_, ?_⟩
  · unfold handleResFrame
    rw [if_neg hbr]
    by_cases hr0 : r = 0
    · subst hr0
      simp [hfind, hok, hr, max_eq_left h0]
    · simp [hfind, hok, hr, hr0]
  · intro hlt
    unfold handleResFrame
    rw [if_neg hbr]
    have hr0 : r ≠ 0 := by omega
    simp [hfind, hok, hr, hr0]
  · intro res2
    have hbr2 : ¬(s.handshakeDone = false ∧ s.connectReqId = some res2.id) := by
      simp [hhs]
    unfold handleResFrame
    rw [if_neg hbr2]
    rcases hf : s.pendingRequests.find? (fun q => q.id == res2.id) with _ | q
    · simp [hf]
    · by_cases hok2 : res2.ok = true
      · rcases hr2 : res2.payload.bind Val.retryAfterMs with _ | r2
        · simp [hf, hok2, hr2]
        · by_cases hr20 : r2 = 0
          · simp [hf, hok2, hr2, hr20]
          · simp [hf, hok2, hr2, hr20, le_max_left]
      · simp [hf, hok2]

/-- C7 witness: interval 15000 plus an ok response carrying
`retryAfterMs = 20000` yields interval 20000 and a restarted scheduler. -/
theorem heartbeat_ratchet_witness :
    ((handleResFrame
        ⟨ConnectionState.connected, [⟨"r1"⟩], [], some 15000, 15000, 0,
          none, none, false, true, 3, true, some "c1", 5⟩
        ⟨"r1", true, some ⟨none, none, none, none, some 20000, none⟩,
          none⟩).1.tickIntervalMs = 20000) ∧
    ((handleResFrame
        ⟨ConnectionState.connected, [⟨"r1"⟩], [], some 15000, 15000, 0,
          none, none, false, true, 3, true, some "c1", 5⟩
        ⟨"r1", true, some ⟨none, none, none, none, some 20000, none⟩,
          none⟩).1.tickTimer = some 20000) := by
  have h := heartbeat_ratchet
    ⟨ConnectionState.connected, [⟨"r1"⟩], [], some 15000, 15000, 0,
      none, none, false, true, 3, true, some "c1", 5⟩
    ⟨"r1", true, some ⟨none, none, none, none, some 20000, none⟩, none⟩
    ⟨"r1"⟩ 20000 rfl (by decide) (by decide) rfl rfl
  exact ⟨h.1.trans (by decide), (h.2.1 (by decide)).trans (by decide)⟩

/-! ### Claim C8 -/

theorem find?_filter_ne (l : List PendingRequest) (rid : String) :
    (l.filter fun q => q.id != rid).find? (fun q => q.id == rid) = none := by
  rw [List.find?_eq_none]
  intro x hx
  have hmem := List.of_mem_filter hx
  simpa using hmem

/-- A Response frame matching neither the outstanding handshake request
nor any pending entry is a strict no-op. -/
theorem handleResFrame_unmatched (s : ClientState) (res : ResponseFrame)
    (hhs : ¬(s.handshakeDone = false ∧ s.connectReqId = some res.id))
    (hfind : s.pendingRequests.find? (fun q => q.id == res.id) = none) :
    handleResFrame s res = (s, []) := by
  unfold handleResFrame
  rw [if_neg hhs]
  simp [hfind]

/-- After the handshake, handling any Response frame removes its id from
the pending map and never sets `handshakeDone` back. -/
theorem handleResFrame_post (s : ClientState) (res2 : ResponseFrame)
    (hdone : s.handshakeDone = true) :
    (handleResFrame s res2).1.handshakeDone = true ∧
    (handleResFrame s res2).1.pendingRequests.find?
      (fun q => q.id == res2.id) = none := by
  have hbr : ¬(s.handshakeDone = false ∧ s.connectReqId = some res2.id) := by
    simp [hdone]
  constructor
  · unfold handleResFrame
    rw [if_neg hbr]
    rcases hf : s.pendingRequests.find? (fun q => q.id == res2.id) with _ | q
    · simpa [hf] using hdone
    · by_cases hok2 : res2.ok = true
      · rcases hr2 : res2.payload.bind Val.retryAfterMs with _ | r2
        · simp [hf, hok2, hr2, hdone]
        · by_cases hr20 : r2 = 0
          · simp [hf, hok2, hr2, hr20, hdone]
          · simp [hf, hok2, hr2, hr20, hdone]
      · simp [hf, hok2, hdone]
  · unfold handleResFrame
    rw [if_neg hbr]
    rcases hf : s.pendingRequests.find? (fun q => q.id == res2.id) with _ | q
    · simp [hf]
    · by_cases hok2 : res2.ok = true
      · rcases hr2 : res2.payload.bind Val.retryAfterMs with _ | r2
        · simp [hf, hok2, hr2, find?_filter_ne]
        · by_cases hr20 : r2 = 0
          · simp [hf, hok2, hr2, hr20, find?_filter_ne]
          · simp [hf, hok2, hr2, hr20, find?_filter_ne]
      · simp [hf, hok2, find?_filter_ne]

/-- C8: a Response frame whose id matches neither the outstanding
handshake request nor any entry of the pending-request map leaves the
client state unchanged and performs no action; in particular, once a
response for an id has been processed (its entry removed), a second
Response with the same id is a no-op rather than a double resolution. -/
theorem unmatched_response_discarded (s : ClientState) (res : ResponseFrame)
    (newId : String) (signFails : Bool)
    (hhs : s.handshakeDone = false → s.connectReqId ≠ some res.id)
    (hfind : s.pendingRequests.find? (fun q => q.id == res.id) = none) :
    handleMessage s newId signFails (Frame.res res) = (s, []) ∧
    (∀ res2 : ResponseFrame, s.handshakeDone = true →
      handleResFrame (handleResFrame s res2).1 res2
        = ((handleResFrame s res2).1, [])) := by
  constructor
  · exact handleResFrame_unmatched s res (fun hc => hhs hc.1 hc.2) hfind
  · intro res2 hdone
    obtain ⟨h1, h2⟩ := handleResFrame_post s res2 hdone
    exact handleResFrame_unmatched _ _ (by simp [h1]) h2

/-- C8 witness: a response with an unknown id is discarded, and the
response that resolved `"r1"` is a no-op when replayed. -/
theorem unmatched_response_discarded_witness :
    handleMessage
      ⟨ConnectionState.connected, [⟨"r1"⟩], [], some 15000, 15000, 0,
        none, none, false, true, 3, true, some "c1", 5⟩
      "n1" false (Frame.res ⟨"zz", true, none, none⟩)
      = (⟨ConnectionState.connected, [⟨"r1"⟩], [], some 15000, 15000, 0,
          none, none, false, true, 3, true, some "c1", 5⟩, []) ∧
    handleResFrame
      (handleResFrame
        ⟨ConnectionState.connected, [⟨"r1"⟩], [], some 15000, 15000, 0,
          none, none, false, true, 3, true, some "c1", 5⟩
        ⟨"r1", true, none, none⟩).1
      ⟨"r1", true, none, none⟩
      = ((handleResFrame
          ⟨ConnectionState.connected, [⟨"r1"⟩], [], some 15000, 15000, 0,
            none, none, false, true, 3, true, some "c1", 5⟩
          ⟨"r1", true, none, none⟩).1, []) := by
  have h := unmatched_response_discarded
    ⟨ConnectionState.connected, [⟨"r1"⟩], [], some 15000, 15000, 0,
      none, none, false, true, 3, true, some "c1", 5⟩
    ⟨"zz", true, none, none⟩ "n1" false (by decide) (by decide)
  exact ⟨h.1, h.2 ⟨"r1", true, none, none⟩ rfl⟩

/-! ### Claim C9 -/

/-- Handler ids recorded by a dispatch, in invocation order. -/
def idsOf (acts : List Action) : List Nat :=
  acts.filterMap fun a =>
    match a with
    | Action.invoked h _ _ => some h
    | _ => none

/-- Whether a handler call returned normally (`false` = it threw). -/
def isOk (r : Except String Unit) : Bool :=
  match r with
  | Except.ok _ => true
  | Except.error _ => false

theorem idsOf_runHandlers (hs : List Handler) (arg : HandlerArg) :
    idsOf (runHandlers hs arg) = hs.map Handler.hid := by
  induction hs with
  | nil => rfl
  | cons h t ih =>
    cases hr : h.run arg with
    | ok u =>
      have hstep : runHandlers (h :: t) arg
          = Action.invoked h.hid arg true :: runHandlers t arg := by
        simp [runHandlers, hr]
      rw [hstep]
      simpa [idsOf, List.filterMap_cons] using ih
    | error err =>
      have hstep : runHandlers (h :: t) arg
          = Action.invoked h.hid arg false :: runHandlers t arg := by
        simp [runHandlers, hr]
      rw [hstep]
      simpa [idsOf, List.filterMap_cons] using ih

theorem mem_runHandlers (hs : List Handler) (arg : HandlerArg) (h : Handler)
    (hm : h ∈ hs) :
    Action.invoked h.hid arg (isOk (h.run arg)) ∈ runHandlers hs arg := by
  cases hr : h.run arg with
  | ok u =>
    have := List.mem_map_of_mem
      (fun h' : Handler =>
        match h'.run arg with
        | Except.ok _ => Action.invoked h'.hid arg true
        | Except.error _ => Action.invoked h'.hid arg false) hm
    simpa [runHandlers, isOk, hr] using this
  | error err =>
    have := List.mem_map_of_mem
      (fun h' : Handler =>
        match h'.run arg with
        | Except.ok _ => Action.invoked h'.hid arg true
        | Except.error _ => Action.invoked h'.hid arg false) hm
    simpa [runHandlers, isOk, hr] using this

/-- C9: dispatching an inbound Event invokes every handler registered for
its exact name (with the raw payload) and every handler registered under
the wildcard name `"*"` (with the tagged `{event, payload}` object), in
registration order; the recorded invocation list does not depend on
handler outcomes, so a throwing handler (`isOk = false`) never prevents
delivery to the remaining handlers. -/
theorem emitEvent_fanout (s : ClientState) (e : String)
    (payload : Option Val) :
    idsOf (emitEvent s e payload)
      = (handlersFor s e).map Handler.hid
        ++ (handlersFor s "*").map Handler.hid ∧
    (∀ h ∈ handlersFor s e,
      Action.invoked h.hid (HandlerArg.plain payload)
        (isOk (h.run (HandlerArg.plain payload)))
        ∈ emitEvent s e payload) ∧
    (∀ h ∈ handlersFor s "*",
      Action.invoked h.hid (HandlerArg.tagged e payload)
        (isOk (h.run (HandlerArg.tagged e payload)))
        ∈ emitEvent s e payload) := by
  refine ⟨?_, ?_, ?_⟩
  · have hsplit : idsOf (emitEvent s e payload)
        = idsOf (runHandlers (handlersFor s e) (HandlerArg.plain payload))
          ++ idsOf (runHandlers (handlersFor s "*")
            (HandlerArg.tagged e payload)) := by
      unfold emitEvent idsOf
      exact List.filterMap_append _ _ _
    rw [hsplit, idsOf_runHandlers, idsOf_runHandlers]
  · intro h hm
    exact List.mem_append_left _ (mem_runHandlers _ _ h hm)
  · intro h hm
    exact List.mem_append_right _ (mem_runHandlers _ _ h hm)

/-- C9 witness: with a throwing exact-name handler (id 1) and a normal
wildcard handler (id 2), both are invoked — the wildcard with the tagged
argument — despite the first one throwing. -/
theorem emitEvent_fanout_witness :
    idsOf (emitEvent
      ⟨ConnectionState.connected, [],
        [("msg", [⟨1, fun _ => Except.error "boom"⟩]),
          ("*", [⟨2, fun _ => Except.ok ()⟩])],
        none, 15000, 0, none, none, false, true, 3, true, none, 5⟩
      "msg" none) = [1, 2] ∧
    Action.invoked 1 (HandlerArg.plain none) false ∈
      emitEvent
        ⟨ConnectionState.connected, [],
          [("msg", [⟨1, fun _ => Except.error "boom"⟩]),
            ("*", [⟨2, fun _ => Except.ok ()⟩])],
          none, 15000, 0, none, none, false, true, 3, true, none, 5⟩
        "msg" none ∧
    Action.invoked 2 (HandlerArg.tagged "msg" none) true ∈
      emitEvent
        ⟨ConnectionState.connected, [],
          [("msg", [⟨1, fun _ => Except.error "boom"⟩]),
            ("*", [⟨2, fun _ => Except.ok ()⟩])],
          none, 15000, 0, none, none, false, true, 3, true, none, 5⟩
        "msg" none := by
  have h := emitEvent_fanout
    ⟨ConnectionState.connected, [],
      [("msg", [⟨1, fun _ => Except.error "boom"⟩]),
        ("*", [⟨2, fun _ => Except.ok ()⟩])],
      none, 15000, 0, none, none, false, true, 3, true, none, 5⟩
    "msg" none
  refine ⟨h.1.trans (by decide), ?_, ?_⟩
  · exact h.2.1 ⟨1, fun _ => Except.error "boom"⟩ (List.Mem.head _)
  · exact h.2.2 ⟨2, fun _ => Except.ok ()⟩ (List.Mem.head _)

/-! ### Claim C10 -/

/-- C10: `disconnect()` erases the entire event-subscription table,
wildcard included; dispatching any event on the post-disconnect state
invokes no handler at all, and a handler receives events again only after
being re-registered via `on()`. -/
theorem disconnect_clears_subscriptions (s : ClientState) (e : String)
    (payload : Option Val) (h : Handler) :
    (disconnect s).1.eventHandlers = [] ∧
    emitEvent (disconnect s).1 e payload = [] ∧
    handlersFor (onEvent (disconnect s).1 e h) e = [h] := by
  refine ⟨rfl, rfl, ?_⟩
  simp [onEvent, handlersFor, List.lookup]

end OpenClaw
